import Mathlib

/-!
# pyhunspell: the `hunspell.c` extension module

A shallow embedding of `src/hunspell.c`, the CPython extension type `Hunspell`
that wraps a handle of the native Hunspell library.

Conventions of the embedding.

* A `char *` that `PyArg_ParseTuple` hands to the module is the UTF-8 form of
  a Python `str` without NUL; it is the `String` itself (`isCString`).
* A `char *` that the native library hands back is arbitrary: it is a `CStr`,
  either `NULL` or the bytes before the terminating NUL, which need not be
  UTF-8.  `Py_BuildValue("s", ..)` decodes it and can fail.
* A `PyObject *` result is `Option PyObject`; `none` is the `NULL` return that
  signals a Python error.
* `Hunhandle *` is a `Nat` address, `0` being `NULL`.
* The native library is not part of the repository.  It is a record `Hunlib σ`
  of state transformers over an arbitrary native state `σ`; every native call
  may read and change that state.
* A method receives `self` by pointer, so each embedded method returns the
  instance after the call next to its result, together with the error
  indicator of the interpreter (`error`), which is clear when a method is
  entered.
* The interpreter is taken not to run out of memory.  Reference counts are not
  modelled.
-/

set_option autoImplicit false

namespace PyHunspell

/-! ## Python values and the CPython helpers used by the module -/

/-- Python objects that cross the boundary of the module. -/
inductive PyObject where
  | none : PyObject
  | bool (b : Bool) : PyObject
  | int (n : Int) : PyObject
  | str (s : String) : PyObject
  | list (items : List PyObject) : PyObject
deriving Repr

/-- A string that can be passed as `char *`: it holds no NUL character. -/
def isCString (s : String) : Bool :=
  s.data.all (fun c => c != Char.ofNat 0)

/-- The call `PyArg_ParseTuple(args, "s", &word)`: the tuple holds exactly one `str`
without an embedded NUL. `none` is the failure return `0`. -/
def PyArg_ParseTuple_s (args : List PyObject) : Option String :=
  match args with
  | [PyObject.str word] => if isCString word then some word else none
  | _ => none

/-- The call `PyArg_ParseTuple(args, "ss", &first, &second)`: the tuple holds exactly
two `str` objects without embedded NUL, returned in tuple order. -/
def PyArg_ParseTuple_ss (args : List PyObject) : Option (String × String) :=
  match args with
  | [PyObject.str first, PyObject.str second] =>
      if isCString first && isCString second then some (first, second) else none
  | _ => none

/-- The call `PyBool_FromLong(v)`: `True` for a non-zero `v`, `False` for zero. -/
def PyBool_FromLong (v : Int) : PyObject :=
  PyObject.bool (v != 0)

/-- A `char *` handed back by the native library: `none` is `NULL`, otherwise
the bytes before the terminating NUL, each a number below 256. -/
abbrev CStr := Option (List Nat)

/-- Strict UTF-8 decoding, byte by byte: `need` continuation bytes are still
due for the code point whose leading bits are `acc` and which a sequence of
this length may encode only from `lo` on.  A stray or missing continuation
byte, an overlong form, a surrogate and a code point above `0x10FFFF` are
refused (`none`). -/
def utf8Go : List Nat → Nat → Nat → Nat → Option (List Char)
  | [], need, _, _ => if need = 0 then some [] else none
  | b :: rest, 0, _, _ =>
      if b < 0x80 then (utf8Go rest 0 0 0).map (fun cs => Char.ofNat b :: cs)
      else if 0xC0 ≤ b ∧ b < 0xE0 then utf8Go rest 1 (b % 32) 0x80
      else if 0xE0 ≤ b ∧ b < 0xF0 then utf8Go rest 2 (b % 16) 0x800
      else if 0xF0 ≤ b ∧ b < 0xF8 then utf8Go rest 3 (b % 8) 0x10000
      else none
  | b :: rest, need + 1, acc, lo =>
      if 0x80 ≤ b ∧ b < 0xC0 then
        if need = 0 then
          if lo ≤ acc * 64 + b % 64 ∧ acc * 64 + b % 64 ≤ 0x10FFFF
              ∧ ¬ (0xD800 ≤ acc * 64 + b % 64 ∧ acc * 64 + b % 64 < 0xE000) then
            (utf8Go rest 0 0 0).map (fun cs => Char.ofNat (acc * 64 + b % 64) :: cs)
          else none
        else utf8Go rest need (acc * 64 + b % 64) lo
      else none

/-- The text of a byte string that is valid UTF-8; `none` when it is not. -/
def utf8Decode (bytes : List Nat) : Option String :=
  (utf8Go bytes 0 0 0).map String.mk

/-- The UTF-8 bytes of one character. -/
def utf8EncodeChar (c : Char) : List Nat :=
  if c.toNat < 0x80 then [c.toNat]
  else if c.toNat < 0x800 then [0xC0 + c.toNat / 64, 0x80 + c.toNat % 64]
  else if c.toNat < 0x10000 then
    [0xE0 + c.toNat / 4096, 0x80 + c.toNat / 64 % 64, 0x80 + c.toNat % 64]
  else
    [0xF0 + c.toNat / 262144, 0x80 + c.toNat / 4096 % 64, 0x80 + c.toNat / 64 % 64,
      0x80 + c.toNat % 64]

/-- The UTF-8 bytes of a text. -/
def utf8Encode (cs : List Char) : List Nat :=
  match cs with
  | [] => []
  | c :: rest => utf8EncodeChar c ++ utf8Encode rest

/-- The C string that holds the given text in UTF-8. -/
def cstr (t : String) : CStr :=
  some (utf8Encode t.data)

/-- The text a native string stands for: none for `NULL` and for bytes that
are not valid UTF-8. -/
def cstrText (p : CStr) : Option String :=
  match p with
  | none => none
  | some bytes => utf8Decode bytes

/-- The call `Py_BuildValue("s", p)`: `None` for a `NULL` pointer, a Python
`str` with the decoded text for valid UTF-8, and `NULL` (here `none`, with
`UnicodeDecodeError` set) for bytes that do not decode. -/
def Py_BuildValue_s (p : CStr) : Option PyObject :=
  match p with
  | none => some PyObject.none
  | some bytes =>
      match utf8Decode bytes with
      | some t => some (PyObject.str t)
      | none => none

/-- The call `Py_BuildValue("i", v)`: a Python `int` with the value of the C `int`. -/
def Py_BuildValue_i (v : Int) : PyObject :=
  PyObject.int v

/-- The call `PyList_New(0)`: the empty list. -/
def PyList_New : List PyObject :=
  []

/-- The call `PyList_Append(list, item)`: `item` is added at the end and `0`
is returned; for a `NULL` item the list is left alone, `SystemError` is set
and `-1` is returned. -/
def PyList_Append (list : List PyObject) (item : Option PyObject) : List PyObject × Int :=
  match item with
  | some x => (list ++ [x], 0)
  | none => (list, -1)

/-! ## The native library -/

/-- A `Hunhandle *`: an address, `0` being `NULL`. -/
abbrev Hunhandle := Nat

/-- A `char **` string array as handed back by the native library: the
pointer read at each index. -/
abbrev StrArray := Nat → CStr

/-- The C API of the native library (`hunspell.h`) as used by the module.
Each function is a transformer of the native state `σ`.  The list functions
return the reported count together with the array they store through their
`char ***` argument. -/
structure Hunlib (σ : Type) where
  Hunspell_create : String → String → σ → Hunhandle × σ
  Hunspell_destroy : Hunhandle → σ → σ
  Hunspell_get_dic_encoding : Hunhandle → σ → CStr × σ
  Hunspell_spell : Hunhandle → String → σ → Int × σ
  Hunspell_suggest : Hunhandle → String → σ → (Int × StrArray) × σ
  Hunspell_analyze : Hunhandle → String → σ → (Int × StrArray) × σ
  Hunspell_stem : Hunhandle → String → σ → (Int × StrArray) × σ
  Hunspell_generate : Hunhandle → String → String → σ → (Int × StrArray) × σ
  Hunspell_add : Hunhandle → String → σ → Int × σ
  Hunspell_add_with_affix : Hunhandle → String → String → σ → Int × σ
  Hunspell_remove : Hunhandle → String → σ → Int × σ
  Hunspell_free_list : Hunhandle → StrArray → Int → σ → σ

/-! ## The `HunSpell` object and its methods -/

/-- The instance struct: `PyObject_HEAD` and the native handle. -/
structure HunSpell where
  handle : Hunhandle
deriving Repr, DecidableEq

/-- What a call leaves behind: the C return value, the instance, the native
state, and whether the error indicator of the interpreter is set. -/
structure Outcome (σ : Type) (α : Type) where
  ret : α
  self : HunSpell
  native : σ
  error : Bool

/-- The slot `HunSpell_new`: `tp_alloc` hands out zeroed memory, so the handle is
`NULL`. -/
def HunSpell_new : HunSpell :=
  { handle := 0 }

/-- The slot `HunSpell_init`: parse `(dpath, apath)`, create the native engine from
`(apath, dpath)` and store its handle; `1` on a parse failure, `0` otherwise. -/
def HunSpell_init {σ : Type} (L : Hunlib σ) (self : HunSpell) (args : List PyObject)
    (s : σ) : Outcome σ Int :=
  match PyArg_ParseTuple_ss args with
  | none => { ret := 1, self := self, native := s, error := true }
  | some (dpath, apath) =>
      let r := L.Hunspell_create apath dpath s
      { ret := 0, self := { self with handle := r.1 }, native := r.2, error := false }

/-- The slot `HunSpell_dealloc`: destroy the native engine of the instance. -/
def HunSpell_dealloc {σ : Type} (L : Hunlib σ) (self : HunSpell) (s : σ) : σ :=
  L.Hunspell_destroy self.handle s

/-- The method `HunSpell_get_dic_encoding`: the encoding name of the native
engine through `Py_BuildValue("s", ..)`; it reads no argument. -/
def HunSpell_get_dic_encoding {σ : Type} (L : Hunlib σ) (self : HunSpell)
    (_args : List PyObject) (s : σ) : Outcome σ (Option PyObject) :=
  let r := L.Hunspell_get_dic_encoding self.handle s
  { ret := Py_BuildValue_s r.1, self := self, native := r.2,
    error := (Py_BuildValue_s r.1).isNone }

/-- The method `HunSpell_spell`: parse one string, ask the native engine, and
turn its `int` into a Python `bool`. -/
def HunSpell_spell {σ : Type} (L : Hunlib σ) (self : HunSpell) (args : List PyObject)
    (s : σ) : Outcome σ (Option PyObject) :=
  match PyArg_ParseTuple_s args with
  | none => { ret := none, self := self, native := s, error := true }
  | some word =>
      let r := L.Hunspell_spell self.handle word s
      let retvalue := r.1
      { ret := some (PyBool_FromLong retvalue), self := self, native := r.2,
        error := false }

/-- The loop shared by the four list methods:
`for (i = 0; i < num_slist; i++) PyList_Append(slist_list, Py_BuildValue("s", slist[i]));`
started at index `i` with the list built so far and the error indicator as it
stands.  Neither return value is looked at: an item that could not be built
is not appended, the error indicator stays set, and the loop goes on. -/
def appendLoop (slist : StrArray) (num_slist : Int) (i : Nat)
    (slist_list : List PyObject) (error : Bool) : List PyObject × Bool :=
  if (i : Int) < num_slist then
    appendLoop slist num_slist (i + 1)
      (PyList_Append slist_list (Py_BuildValue_s (slist i))).1
      (error || (Py_BuildValue_s (slist i)).isNone)
  else
    (slist_list, error)
termination_by (num_slist - (i : Int)).toNat
decreasing_by omega

/-- The method `HunSpell_suggest`: parse one string, start an empty list, call
`Hunspell_suggest`, append the reported strings, free the native list. -/
def HunSpell_suggest {σ : Type} (L : Hunlib σ) (self : HunSpell) (args : List PyObject)
    (s : σ) : Outcome σ (Option PyObject) :=
  match PyArg_ParseTuple_s args with
  | none => { ret := none, self := self, native := s, error := true }
  | some word =>
      let slist_list := PyList_New
      let r := L.Hunspell_suggest self.handle word s
      let num_slist := r.1.1
      let slist := r.1.2
      let filled := appendLoop slist num_slist 0 slist_list false
      let s1 := L.Hunspell_free_list self.handle slist num_slist r.2
      { ret := some (PyObject.list filled.1), self := self, native := s1,
        error := filled.2 }

/-- The method `HunSpell_analyze`: as `HunSpell_suggest`, over
`Hunspell_analyze`. -/
def HunSpell_analyze {σ : Type} (L : Hunlib σ) (self : HunSpell) (args : List PyObject)
    (s : σ) : Outcome σ (Option PyObject) :=
  match PyArg_ParseTuple_s args with
  | none => { ret := none, self := self, native := s, error := true }
  | some word =>
      let slist_list := PyList_New
      let r := L.Hunspell_analyze self.handle word s
      let num_slist := r.1.1
      let slist := r.1.2
      let filled := appendLoop slist num_slist 0 slist_list false
      let s1 := L.Hunspell_free_list self.handle slist num_slist r.2
      { ret := some (PyObject.list filled.1), self := self, native := s1,
        error := filled.2 }

/-- The method `HunSpell_stem`: as `HunSpell_suggest`, over `Hunspell_stem`. -/
def HunSpell_stem {σ : Type} (L : Hunlib σ) (self : HunSpell) (args : List PyObject)
    (s : σ) : Outcome σ (Option PyObject) :=
  match PyArg_ParseTuple_s args with
  | none => { ret := none, self := self, native := s, error := true }
  | some word =>
      let slist_list := PyList_New
      let r := L.Hunspell_stem self.handle word s
      let num_slist := r.1.1
      let slist := r.1.2
      let filled := appendLoop slist num_slist 0 slist_list false
      let s1 := L.Hunspell_free_list self.handle slist num_slist r.2
      { ret := some (PyObject.list filled.1), self := self, native := s1,
        error := filled.2 }

/-- The method `HunSpell_generate`: parse two strings `word1`, `word2` and
call `Hunspell_generate` with them in that order; the rest as
`HunSpell_suggest`. -/
def HunSpell_generate {σ : Type} (L : Hunlib σ) (self : HunSpell) (args : List PyObject)
    (s : σ) : Outcome σ (Option PyObject) :=
  match PyArg_ParseTuple_ss args with
  | none => { ret := none, self := self, native := s, error := true }
  | some (word1, word2) =>
      let slist_list := PyList_New
      let r := L.Hunspell_generate self.handle word1 word2 s
      let num_slist := r.1.1
      let slist := r.1.2
      let filled := appendLoop slist num_slist 0 slist_list false
      let s1 := L.Hunspell_free_list self.handle slist num_slist r.2
      { ret := some (PyObject.list filled.1), self := self, native := s1,
        error := filled.2 }

/-- The method `HunSpell_add`: parse one string and return the `int` status of
`Hunspell_add` as a Python `int`. -/
def HunSpell_add {σ : Type} (L : Hunlib σ) (self : HunSpell) (args : List PyObject)
    (s : σ) : Outcome σ (Option PyObject) :=
  match PyArg_ParseTuple_s args with
  | none => { ret := none, self := self, native := s, error := true }
  | some word =>
      let r := L.Hunspell_add self.handle word s
      let retvalue := r.1
      { ret := some (Py_BuildValue_i retvalue), self := self, native := r.2,
        error := false }

/-- The method `HunSpell_add_with_affix`: parse two strings `word`, `example`
and return the `int` status of `Hunspell_add_with_affix(handle, word, example)`. -/
def HunSpell_add_with_affix {σ : Type} (L : Hunlib σ) (self : HunSpell)
    (args : List PyObject) (s : σ) : Outcome σ (Option PyObject) :=
  match PyArg_ParseTuple_ss args with
  | none => { ret := none, self := self, native := s, error := true }
  | some (word, example_) =>
      let r := L.Hunspell_add_with_affix self.handle word example_ s
      let retvalue := r.1
      { ret := some (Py_BuildValue_i retvalue), self := self, native := r.2,
        error := false }

/-- The method `HunSpell_remove`: parse one string and return the `int` status
of `Hunspell_remove` as a Python `int`. -/
def HunSpell_remove {σ : Type} (L : Hunlib σ) (self : HunSpell) (args : List PyObject)
    (s : σ) : Outcome σ (Option PyObject) :=
  match PyArg_ParseTuple_s args with
  | none => { ret := none, self := self, native := s, error := true }
  | some word =>
      let r := L.Hunspell_remove self.handle word s
      let retvalue := r.1
      { ret := some (Py_BuildValue_i retvalue), self := self, native := r.2,
        error := false }

/-- The calling convention of a method table entry. -/
inductive MethFlags where
  | METH_NOARGS : MethFlags
  | METH_VARARGS : MethFlags
deriving Repr, DecidableEq

/-- The method table `HunSpell_methods[]`: the C function and the calling
convention behind each method name. -/
def HunSpell_methods {σ : Type} (L : Hunlib σ) (name : String) :
    Option ((HunSpell → List PyObject → σ → Outcome σ (Option PyObject)) × MethFlags) :=
  if name = "get_dic_encoding" then
    some (HunSpell_get_dic_encoding L, MethFlags.METH_NOARGS)
  else if name = "spell" then some (HunSpell_spell L, MethFlags.METH_VARARGS)
  else if name = "suggest" then some (HunSpell_suggest L, MethFlags.METH_VARARGS)
  else if name = "analyze" then some (HunSpell_analyze L, MethFlags.METH_VARARGS)
  else if name = "stem" then some (HunSpell_stem L, MethFlags.METH_VARARGS)
  else if name = "generate" then some (HunSpell_generate L, MethFlags.METH_VARARGS)
  else if name = "add" then some (HunSpell_add L, MethFlags.METH_VARARGS)
  else if name = "add_with_affix" then
    some (HunSpell_add_with_affix L, MethFlags.METH_VARARGS)
  else if name = "remove" then some (HunSpell_remove L, MethFlags.METH_VARARGS)
  else none

/-- The check the interpreter makes on what a C function returns: a result
that comes with the error indicator set is dropped and the call raises
(`SystemError`), as does a `NULL` result. -/
def checkResult {σ : Type} (r : Outcome σ (Option PyObject)) :
    Outcome σ (Option PyObject) :=
  if r.error || r.ret.isNone then { r with ret := none, error := true } else r

/-- One call `self.name(*args)` as Python sees it.  The name `__init__` is the
slot `tp_init = HunSpell_init` of the type: a negative return is an error,
anything else yields `None`.  A name of the method table enters its C
function: a `METH_VARARGS` function receives the argument tuple, a
`METH_NOARGS` function is entered only when the tuple is empty.  Any other
name never enters the module.  What the C function returns goes through
`checkResult`. -/
def callMethod {σ : Type} (L : Hunlib σ) (name : String) (self : HunSpell)
    (args : List PyObject) (s : σ) : Outcome σ (Option PyObject) :=
  if name = "__init__" then
    let r := HunSpell_init L self args s
    checkResult
      { ret := if r.ret < 0 then none else some PyObject.none, self := r.self,
        native := r.native, error := r.error }
  else
    match HunSpell_methods L name with
    | some (f, MethFlags.METH_VARARGS) => checkResult (f self args s)
    | some (f, MethFlags.METH_NOARGS) =>
        if args.isEmpty then checkResult (f self args s)
        else { ret := none, self := self, native := s, error := true }
    | none => { ret := none, self := self, native := s, error := true }

/-- The native library with a recorder attached: the state carries, next to
the state of `L`, the handle argument of every native call made so far
(latest first). `Hunspell_create` takes no handle and records nothing. -/
def recording {σ : Type} (L : Hunlib σ) : Hunlib (σ × List Hunhandle) :=
  { Hunspell_create := fun a d st =>
      let r := L.Hunspell_create a d st.1
      (r.1, (r.2, st.2))
    Hunspell_destroy := fun h st => (L.Hunspell_destroy h st.1, h :: st.2)
    Hunspell_get_dic_encoding := fun h st =>
      let r := L.Hunspell_get_dic_encoding h st.1
      (r.1, (r.2, h :: st.2))
    Hunspell_spell := fun h w st =>
      let r := L.Hunspell_spell h w st.1
      (r.1, (r.2, h :: st.2))
    Hunspell_suggest := fun h w st =>
      let r := L.Hunspell_suggest h w st.1
      (r.1, (r.2, h :: st.2))
    Hunspell_analyze := fun h w st =>
      let r := L.Hunspell_analyze h w st.1
      (r.1, (r.2, h :: st.2))
    Hunspell_stem := fun h w st =>
      let r := L.Hunspell_stem h w st.1
      (r.1, (r.2, h :: st.2))
    Hunspell_generate := fun h w1 w2 st =>
      let r := L.Hunspell_generate h w1 w2 st.1
      (r.1, (r.2, h :: st.2))
    Hunspell_add := fun h w st =>
      let r := L.Hunspell_add h w st.1
      (r.1, (r.2, h :: st.2))
    Hunspell_add_with_affix := fun h w e st =>
      let r := L.Hunspell_add_with_affix h w e st.1
      (r.1, (r.2, h :: st.2))
    Hunspell_remove := fun h w st =>
      let r := L.Hunspell_remove h w st.1
      (r.1, (r.2, h :: st.2))
    Hunspell_free_list := fun h l n st => (L.Hunspell_free_list h l n st.1, h :: st.2) }

/-! ## A small native library to run the module on -/

/-- State of the demonstration library: the readable files (path and lines)
and the word list of the one engine it can hold, at handle `1`. -/
structure DemoState where
  files : List (String × List String)
  words : List String
deriving Repr, DecidableEq

/-- A string array holding the given texts, in UTF-8, from index `0`, and
`NULL` behind them. -/
def arrayOf (xs : List String) : StrArray :=
  fun i => (xs.get? i).bind cstr

/-- A word list behind the C API: `Hunspell_create` yields handle `1` when
both files are readable and `NULL` otherwise; a word is correct when it is in
the list; suggestions are the listed words of the same length. -/
def demoLib : Hunlib DemoState :=
  { Hunspell_create := fun affpath dpath st =>
      match st.files.lookup affpath, st.files.lookup dpath with
      | some _, some ws => (1, { st with words := ws })
      | _, _ => (0, st)
    Hunspell_destroy := fun _ st => { st with words := [] }
    Hunspell_get_dic_encoding := fun _ st => (cstr "UTF-8", st)
    Hunspell_spell := fun _ w st => (if w ∈ st.words then 1 else 0, st)
    Hunspell_suggest := fun _ w st =>
      let found := st.words.filter (fun c => c.length == w.length)
      ((found.length, arrayOf found), st)
    Hunspell_analyze := fun _ w st =>
      if w ∈ st.words then ((1, arrayOf ["st:" ++ w]), st) else ((0, arrayOf []), st)
    Hunspell_stem := fun _ w st =>
      if w ∈ st.words then ((1, arrayOf [w]), st) else ((0, arrayOf []), st)
    Hunspell_generate := fun _ w1 w2 st =>
      if w1 ∈ st.words ∧ w2 ∈ st.words then ((1, arrayOf [w1]), st) else ((0, arrayOf []), st)
    Hunspell_add := fun _ w st => (0, { st with words := w :: st.words })
    Hunspell_add_with_affix := fun _ w e st =>
      if e ∈ st.words then (0, { st with words := w :: st.words }) else (1, st)
    Hunspell_remove := fun _ w st => (0, { st with words := st.words.filter (fun c => c != w) })
    Hunspell_free_list := fun _ _ _ st => st }

/-- A demonstration state: an affix file, a dictionary file, and the engine
loaded from them. -/
def demoState : DemoState :=
  { files := [("en.aff", ["SET UTF-8"]), ("en.dic", ["walk", "talk", "wall"])]
    words := ["walk", "talk", "wall"] }

/-- A native library in which nothing is loaded: every query finds nothing,
every status is `0`, `Hunspell_create` hands out handle `1`, and the state is
never changed. -/
def idleLib {σ : Type} : Hunlib σ :=
  { Hunspell_create := fun _ _ st => (1, st)
    Hunspell_destroy := fun _ st => st
    Hunspell_get_dic_encoding := fun _ st => (cstr "UTF-8", st)
    Hunspell_spell := fun _ _ st => (0, st)
    Hunspell_suggest := fun _ _ st => ((0, arrayOf []), st)
    Hunspell_analyze := fun _ _ st => ((0, arrayOf []), st)
    Hunspell_stem := fun _ _ st => ((0, arrayOf []), st)
    Hunspell_generate := fun _ _ _ st => ((0, arrayOf []), st)
    Hunspell_add := fun _ _ st => (0, st)
    Hunspell_add_with_affix := fun _ _ _ st => (0, st)
    Hunspell_remove := fun _ _ st => (0, st)
    Hunspell_free_list := fun _ _ _ st => st }

/-! ## The engine behind the handle

The spelling engine itself (`Hunspell_spell`, `Hunspell_add`,
`Hunspell_remove`, ..) is linked from the native library and has no source in
the repository.  The definitions of this section follow the specification
(§3 data model, §4.4 query engine, §4.5 runtime dictionary). -/

/-- Modelled from the spec: the FlagSet of §3, "set of flag identifiers attached
to a dictionary entry". The native engine is missing from the sources. -/
abbrev FlagSet := List String

/-- Modelled from the spec: the DictionaryEntry of §3, "stem (string), FlagSet,
optional morphological data". The native engine is missing from the sources. -/
structure DictionaryEntry where
  stem : String
  flags : FlagSet
  morph : Option String
deriving Repr, DecidableEq

/-- Modelled from the spec: the source-of-truth flag of a RuntimeOverlay entry
(§3), "added-plain | added-with-affix-example | removed-tombstone". The native
engine is missing from the sources. -/
inductive OverlaySource where
  | addedPlain : OverlaySource
  | addedWithAffixExample : OverlaySource
  | removedTombstone : OverlaySource
deriving Repr, DecidableEq

/-- Modelled from the spec: the RuntimeOverlay of §3, "mapping from word to
(FlagSet, source-of-truth flag)", kept as an association list with one entry
per word. The native engine is missing from the sources. -/
abbrev RuntimeOverlay := List (String × (FlagSet × OverlaySource))

/-- Modelled from the spec: one loaded engine (§2, §9: "engine owns rule table,
dictionary index, and overlay"). The native engine is missing from the
sources. The compiled rule table is present through what the Morphological
Expander computes from it: `expand stem flags` are the surface forms of §4.3
and `needsAffix flags` tells whether the flags carry the needaffix marker of
§3. The "configured case-sensitivity rules from the affix configuration" of
§4.4 are present as `caseVariants word`, the normalized case variants that
`spell` retries for a word. -/
structure Engine where
  index : List DictionaryEntry
  expand : String → FlagSet → List String
  needsAffix : FlagSet → Bool
  caseVariants : String → List String
  overlay : RuntimeOverlay

/-- The lowercase form of a word (ASCII letters). -/
def lowercase (word : String) : String :=
  String.mk (word.data.map Char.toLower)

/-- An engine with the entry `walk/S` and a suffix flag `S` that adds `ed` and
`ing` (the scenario of §8), the lowercase form as case variant, and nothing in
the overlay. -/
def walkEngine : Engine :=
  { index := [{ stem := "walk", flags := ["S"], morph := none }]
    expand := fun stem flags => if "S" ∈ flags then [stem ++ "ed", stem ++ "ing"] else []
    needsAffix := fun _ => false
    caseVariants := fun word => [lowercase word]
    overlay := [] }

/-- A native library over a dictionary in ISO8859-1: the encoding name is
`ISO8859-1` and the one suggestion for any word is `café` in that encoding,
the bytes `63 61 66 E9`; everything else is idle. -/
def latin1Lib : Hunlib Unit :=
  { idleLib with
    Hunspell_get_dic_encoding := fun _ st => (cstr "ISO8859-1", st)
    Hunspell_suggest := fun _ _ st => ((1, fun _ => some [0x63, 0x61, 0x66, 0xE9]), st) }


/-! ## Helper lemmas -/

theorem PyArg_ParseTuple_s_str (word : String) (h : isCString word = true) :
    PyArg_ParseTuple_s [PyObject.str word] = some word := by
  simp [PyArg_ParseTuple_s, h]

theorem PyArg_ParseTuple_ss_str (first second : String) (h1 : isCString first = true)
    (h2 : isCString second = true) :
    PyArg_ParseTuple_ss [PyObject.str first, PyObject.str second] = some (first, second) := by
  simp [PyArg_ParseTuple_ss, h1, h2]

/-- Decoding the UTF-8 bytes of a character gives the character back. -/
theorem utf8Go_encodeChar (c : Char) (rest : List Nat) :
    utf8Go (utf8EncodeChar c ++ rest) 0 0 0 = (utf8Go rest 0 0 0).map (fun cs => c :: cs) := by
  have hv := c.valid
  have hc : Char.ofNat c.toNat = c := Char.ofNat_toNat c
  have hn : c.toNat = c.val.toNat := rfl
  simp only [UInt32.isValidChar, Nat.isValidChar] at hv
  rw [← hn] at hv
  unfold utf8EncodeChar
  split_ifs with h1 h2 h3
  · simp [utf8Go, h1, hc]
  · have e1 : ¬ (0xC0 + c.toNat / 64 < 0x80) := by omega
    have e2 : 0xC0 ≤ 0xC0 + c.toNat / 64 ∧ 0xC0 + c.toNat / 64 < 0xE0 := by omega
    have e3 : 0x80 ≤ 0x80 + c.toNat % 64 ∧ 0x80 + c.toNat % 64 < 0xC0 := by omega
    have e4 : (0xC0 + c.toNat / 64) % 32 * 64 + (0x80 + c.toNat % 64) % 64 = c.toNat := by omega
    simp only [List.cons_append, List.nil_append, utf8Go, e1, e2, e3, e4, if_true, if_false, and_self]
    have e5 : 0x80 ≤ c.toNat ∧ c.toNat ≤ 0x10FFFF ∧ ¬ (0xD800 ≤ c.toNat ∧ c.toNat < 0xE000) := by omega
    simp [e5, hc]
  · have e1 : ¬ (0xE0 + c.toNat / 4096 < 0x80) := by omega
    have e2 : ¬ (0xC0 ≤ 0xE0 + c.toNat / 4096 ∧ 0xE0 + c.toNat / 4096 < 0xE0) := by omega
    have e3 : 0xE0 ≤ 0xE0 + c.toNat / 4096 ∧ 0xE0 + c.toNat / 4096 < 0xF0 := by omega
    have e4 : 0x80 ≤ 0x80 + c.toNat / 64 % 64 ∧ 0x80 + c.toNat / 64 % 64 < 0xC0 := by omega
    have e5 : 0x80 ≤ 0x80 + c.toNat % 64 ∧ 0x80 + c.toNat % 64 < 0xC0 := by omega
    have e6 : ((0xE0 + c.toNat / 4096) % 16 * 64 + (0x80 + c.toNat / 64 % 64) % 64) * 64
        + (0x80 + c.toNat % 64) % 64 = c.toNat := by omega
    have e7 : 0x800 ≤ c.toNat ∧ c.toNat ≤ 0x10FFFF
        ∧ ¬ (0xD800 ≤ c.toNat ∧ c.toNat < 0xE000) := by omega
    simp only [List.cons_append, List.nil_append, utf8Go, e1, e2, e3, e4, e5, e6, if_true,
      if_false, and_self]
    simp [e7, hc]
  · have e1 : ¬ (0xF0 + c.toNat / 262144 < 0x80) := by omega
    have e2 : ¬ (0xC0 ≤ 0xF0 + c.toNat / 262144 ∧ 0xF0 + c.toNat / 262144 < 0xE0) := by omega
    have e3 : ¬ (0xE0 ≤ 0xF0 + c.toNat / 262144 ∧ 0xF0 + c.toNat / 262144 < 0xF0) := by omega
    have e3b : 0xF0 ≤ 0xF0 + c.toNat / 262144 ∧ 0xF0 + c.toNat / 262144 < 0xF8 := by omega
    have e4 : 0x80 ≤ 0x80 + c.toNat / 4096 % 64 ∧ 0x80 + c.toNat / 4096 % 64 < 0xC0 := by omega
    have e4b : 0x80 ≤ 0x80 + c.toNat / 64 % 64 ∧ 0x80 + c.toNat / 64 % 64 < 0xC0 := by omega
    have e5 : 0x80 ≤ 0x80 + c.toNat % 64 ∧ 0x80 + c.toNat % 64 < 0xC0 := by omega
    have e6 : (((0xF0 + c.toNat / 262144) % 8 * 64 + (0x80 + c.toNat / 4096 % 64) % 64) * 64
        + (0x80 + c.toNat / 64 % 64) % 64) * 64 + (0x80 + c.toNat % 64) % 64 = c.toNat := by
      omega
    have e7 : 0x10000 ≤ c.toNat ∧ c.toNat ≤ 0x10FFFF
        ∧ ¬ (0xD800 ≤ c.toNat ∧ c.toNat < 0xE000) := by omega
    simp only [List.cons_append, List.nil_append, utf8Go, e1, e2, e3, e3b, e4, e4b, e5, e6,
      if_true, if_false, and_self]
    simp [e7, hc]

/-- Decoding the UTF-8 bytes of a text gives the text back. -/
theorem utf8Go_encode (cs : List Char) :
    utf8Go (utf8Encode cs) 0 0 0 = some cs := by
  induction cs with
  | nil => simp [utf8Encode, utf8Go]
  | cons c rest ih => simp [utf8Encode, utf8Go_encodeChar, ih]

/-- A C string holding a text in UTF-8 stands for that text. -/
theorem cstrText_cstr (t : String) : cstrText (cstr t) = some t := by
  simp [cstrText, cstr, utf8Decode, utf8Go_encode]

/-- A C string holding a text in UTF-8 is built into the `str` of that text. -/
theorem Py_BuildValue_s_cstr (t : String) :
    Py_BuildValue_s (cstr t) = some (PyObject.str t) := by
  have h := cstrText_cstr t
  simp only [cstrText, cstr] at h
  simp [Py_BuildValue_s, cstr, h]

/-- A native string that stands for a text is built into the `str` of that
text. -/
theorem Py_BuildValue_s_text (p : CStr) (t : String) (h : cstrText p = some t) :
    Py_BuildValue_s p = some (PyObject.str t) := by
  cases p with
  | none => simp [cstrText] at h
  | some bytes =>
      simp only [cstrText] at h
      simp [Py_BuildValue_s, h]

/-- The loop appends what could be built from the strings at indices
`i, i+1, ..` below `num_slist`, in that order, and sets the error indicator
when one of them could not be built. -/
theorem appendLoop_eq (slist : StrArray) (num_slist : Int) (i : Nat)
    (acc : List PyObject) (error : Bool) :
    appendLoop slist num_slist i acc error
      = (acc ++ (List.range' i (num_slist.toNat - i)).filterMap
            (fun k => Py_BuildValue_s (slist k)),
         error || (List.range' i (num_slist.toNat - i)).any
            (fun k => (Py_BuildValue_s (slist k)).isNone)) := by
  generalize hk : num_slist.toNat - i = k
  induction k generalizing i acc error with
  | zero =>
      rw [appendLoop]
      have : ¬ ((i : Int) < num_slist) := by omega
      simp [this]
  | succ k ih =>
      rw [appendLoop]
      have hlt : (i : Int) < num_slist := by omega
      rw [if_pos hlt, ih (i + 1) _ _ (by omega)]
      cases hb : Py_BuildValue_s (slist i) with
      | none => simp [PyList_Append, List.range'_succ, hb]
      | some x => simp [PyList_Append, List.range'_succ, hb]

/-- When each of the first `num_slist` native strings stands for a text, the
loop builds the list of their `str` objects and leaves the error indicator
clear. -/
theorem appendLoop_text (slist : StrArray) (num_slist : Int)
    (htext : ∀ i : Nat, (i : Int) < num_slist → (cstrText (slist i)).isSome = true) :
    appendLoop slist num_slist 0 PyList_New false
      = ((List.range num_slist.toNat).map
            (fun k => PyObject.str ((cstrText (slist k)).getD "")), false) := by
  rw [appendLoop_eq, ← List.range_eq_range']
  have hb : ∀ k ∈ List.range num_slist.toNat,
      Py_BuildValue_s (slist k) = some (PyObject.str ((cstrText (slist k)).getD "")) := by
    intro k hk
    have hlt : (k : Int) < num_slist := by
      have := List.mem_range.mp hk
      omega
    have hs := htext k hlt
    obtain ⟨t, ht⟩ := Option.isSome_iff_exists.mp hs
    rw [Py_BuildValue_s_text _ t ht, ht]
    rfl
  have h1 : (List.range num_slist.toNat).filterMap (fun k => Py_BuildValue_s (slist k))
      = (List.range num_slist.toNat).map
          (fun k => PyObject.str ((cstrText (slist k)).getD "")) := by
    rw [← List.filterMap_eq_map]
    apply List.filterMap_congr
    intro k hk
    simp [hb k hk]
  have h2 : (List.range num_slist.toNat).any
      (fun k => (Py_BuildValue_s (slist k)).isNone) = false := by
    rw [List.any_eq_false]
    intro k hk
    simp [hb k hk]
  simp [PyList_New, h1, h2]

/-- The list built from native strings that all stand for texts has
`num_slist` elements, the `i`-th being the `str` of the `i`-th text. -/
theorem appendLoop_spec (slist : StrArray) (num_slist : Int)
    (htext : ∀ i : Nat, (i : Int) < num_slist → (cstrText (slist i)).isSome = true) :
    (appendLoop slist num_slist 0 PyList_New false).2 = false
    ∧ (appendLoop slist num_slist 0 PyList_New false).1.length = num_slist.toNat
    ∧ ∀ i : Nat, (i : Int) < num_slist →
        (appendLoop slist num_slist 0 PyList_New false).1[i]?
          = (cstrText (slist i)).map PyObject.str := by
  rw [appendLoop_text slist num_slist htext]
  refine ⟨rfl, by simp, ?_⟩
  intro i hi
  have hlt : i < num_slist.toNat := by omega
  obtain ⟨t, ht⟩ := Option.isSome_iff_exists.mp (htext i hi)
  simp [List.getElem?_map, List.getElem?_range hlt, ht]

/-- The check of the interpreter touches neither the instance nor the native
state. -/
theorem checkResult_self_native {σ : Type} (r : Outcome σ (Option PyObject)) :
    (checkResult r).self = r.self ∧ (checkResult r).native = r.native := by
  unfold checkResult
  split <;> exact ⟨rfl, rfl⟩

/-- Called as `__init__`, `HunSpell_init` runs again and the instance takes
the handle of the engine it creates. -/
theorem callMethod_init {σ : Type} (L : Hunlib σ) (self : HunSpell) (d a : String) (s : σ)
    (hd : isCString d = true) (ha : isCString a = true) :
    (callMethod L "__init__" self [PyObject.str d, PyObject.str a] s).self.handle
      = (L.Hunspell_create a d s).1 := by
  have hpp := PyArg_ParseTuple_ss_str d a hd ha
  simp only [callMethod, if_true, (checkResult_self_native _).1, HunSpell_init, hpp]

/-- C2, as stated, fails: over a dictionary in ISO8859-1 the native call
reports one suggestion, `café` as the bytes `63 61 66 E9`, which is not UTF-8;
`Py_BuildValue("s", ..)` returns `NULL`, nothing is appended, and `suggest`
returns an empty list with the error indicator set, which Python sees as a
raised error and not as the one-element list. -/
theorem suggest_drops_undecodable_string :
    (latin1Lib.Hunspell_suggest 1 "cafe" ()).1.1 = 1
    ∧ (latin1Lib.Hunspell_suggest 1 "cafe" ()).1.2 0 = some [0x63, 0x61, 0x66, 0xE9]
    ∧ Py_BuildValue_s (some [0x63, 0x61, 0x66, 0xE9]) = none
    ∧ (HunSpell_suggest latin1Lib { handle := 1 } [PyObject.str "cafe"] ()).ret
        = some (PyObject.list [])
    ∧ (HunSpell_suggest latin1Lib { handle := 1 } [PyObject.str "cafe"] ()).error = true
    ∧ (callMethod latin1Lib "suggest" { handle := 1 } [PyObject.str "cafe"] ()).ret
        = none := by
  have hp : PyArg_ParseTuple_s [PyObject.str "cafe"] = some "cafe" :=
    PyArg_ParseTuple_s_str "cafe" (by decide)
  have hb : Py_BuildValue_s (some [0x63, 0x61, 0x66, 0xE9]) = none := by
    have hd : utf8Decode [0x63, 0x61, 0x66, 0xE9] = none := by decide
    simp only [Py_BuildValue_s, hd]
  have hloop : appendLoop (fun _ => some [0x63, 0x61, 0x66, 0xE9]) 1 0 PyList_New false
      = ([], true) := by
    rw [appendLoop_eq]
    simp [PyList_New, hb, List.range']
  have hs : HunSpell_suggest latin1Lib { handle := 1 } [PyObject.str "cafe"] ()
      = { ret := some (PyObject.list []), self := { handle := 1 }, native := (),
          error := true } := by
    simp only [HunSpell_suggest, hp, latin1Lib, idleLib, hloop]
  have hm : HunSpell_methods latin1Lib "suggest"
      = some (HunSpell_suggest latin1Lib, MethFlags.METH_VARARGS) := by
    simp [HunSpell_methods]
  have hne : ¬ ("suggest" = "__init__") := by decide
  refine ⟨rfl, rfl, hb, ?_, ?_, ?_⟩
  · rw [hs]
  · rw [hs]
  · simp only [callMethod, if_neg hne, hm, hs, checkResult]
    simp

/-- C2, amended: for `suggest`, `analyze`, `stem` and `generate`, when the
native call reports a count `n >= 0` with strings `s_0 .. s_(n-1)` each of
which is a non-`NULL` string of valid UTF-8, the method returns, with no error
set, a list of exactly `n` elements whose `i`-th element is the `str` of
`s_i`; `generate` hands `sourceWord` and `exampleWord` to the native call in
that order. -/
theorem list_methods_return_decodable_native_list {σ : Type} (L : Hunlib σ)
    (self : HunSpell) (word sourceWord exampleWord : String) (s : σ)
    (hword : isCString word = true) (hsource : isCString sourceWord = true)
    (hexample : isCString exampleWord = true) :
    (0 ≤ (L.Hunspell_suggest self.handle word s).1.1 →
      (∀ i : Nat, (i : Int) < (L.Hunspell_suggest self.handle word s).1.1 →
        (cstrText ((L.Hunspell_suggest self.handle word s).1.2 i)).isSome = true) →
      ∃ items, (HunSpell_suggest L self [PyObject.str word] s).ret = some (PyObject.list items)
        ∧ (HunSpell_suggest L self [PyObject.str word] s).error = false
        ∧ (items.length : Int) = (L.Hunspell_suggest self.handle word s).1.1
        ∧ ∀ i : Nat, (i : Int) < (L.Hunspell_suggest self.handle word s).1.1 →
            items[i]? = (cstrText ((L.Hunspell_suggest self.handle word s).1.2 i)).map
              PyObject.str)
    ∧ (0 ≤ (L.Hunspell_analyze self.handle word s).1.1 →
      (∀ i : Nat, (i : Int) < (L.Hunspell_analyze self.handle word s).1.1 →
        (cstrText ((L.Hunspell_analyze self.handle word s).1.2 i)).isSome = true) →
      ∃ items, (HunSpell_analyze L self [PyObject.str word] s).ret = some (PyObject.list items)
        ∧ (HunSpell_analyze L self [PyObject.str word] s).error = false
        ∧ (items.length : Int) = (L.Hunspell_analyze self.handle word s).1.1
        ∧ ∀ i : Nat, (i : Int) < (L.Hunspell_analyze self.handle word s).1.1 →
            items[i]? = (cstrText ((L.Hunspell_analyze self.handle word s).1.2 i)).map
              PyObject.str)
    ∧ (0 ≤ (L.Hunspell_stem self.handle word s).1.1 →
      (∀ i : Nat, (i : Int) < (L.Hunspell_stem self.handle word s).1.1 →
        (cstrText ((L.Hunspell_stem self.handle word s).1.2 i)).isSome = true) →
      ∃ items, (HunSpell_stem L self [PyObject.str word] s).ret = some (PyObject.list items)
        ∧ (HunSpell_stem L self [PyObject.str word] s).error = false
        ∧ (items.length : Int) = (L.Hunspell_stem self.handle word s).1.1
        ∧ ∀ i : Nat, (i : Int) < (L.Hunspell_stem self.handle word s).1.1 →
            items[i]? = (cstrText ((L.Hunspell_stem self.handle word s).1.2 i)).map
              PyObject.str)
    ∧ (0 ≤ (L.Hunspell_generate self.handle sourceWord exampleWord s).1.1 →
      (∀ i : Nat, (i : Int) < (L.Hunspell_generate self.handle sourceWord exampleWord s).1.1 →
        (cstrText ((L.Hunspell_generate self.handle sourceWord exampleWord s).1.2 i)).isSome
          = true) →
      ∃ items, (HunSpell_generate L self
            [PyObject.str sourceWord, PyObject.str exampleWord] s).ret
          = some (PyObject.list items)
        ∧ (HunSpell_generate L self
            [PyObject.str sourceWord, PyObject.str exampleWord] s).error = false
        ∧ (items.length : Int) = (L.Hunspell_generate self.handle sourceWord exampleWord s).1.1
        ∧ ∀ i : Nat, (i : Int) < (L.Hunspell_generate self.handle sourceWord exampleWord s).1.1 →
            items[i]? = (cstrText
              ((L.Hunspell_generate self.handle sourceWord exampleWord s).1.2 i)).map
              PyObject.str) := by
  have hp := PyArg_ParseTuple_s_str word hword
  have hpp := PyArg_ParseTuple_ss_str sourceWord exampleWord hsource hexample
  refine ⟨?_, ?_, ?_, ?_⟩
  · intro hn ht
    have hs := appendLoop_spec (L.Hunspell_suggest self.handle word s).1.2
      (L.Hunspell_suggest self.handle word s).1.1 ht
    refine ⟨_, by simp only [HunSpell_suggest, hp], ?_, ?_, hs.2.2⟩
    · simp only [HunSpell_suggest, hp, hs.1]
    · rw [hs.2.1]; omega
  · intro hn ht
    have hs := appendLoop_spec (L.Hunspell_analyze self.handle word s).1.2
      (L.Hunspell_analyze self.handle word s).1.1 ht
    refine ⟨_, by simp only [HunSpell_analyze, hp], ?_, ?_, hs.2.2⟩
    · simp only [HunSpell_analyze, hp, hs.1]
    · rw [hs.2.1]; omega
  · intro hn ht
    have hs := appendLoop_spec (L.Hunspell_stem self.handle word s).1.2
      (L.Hunspell_stem self.handle word s).1.1 ht
    refine ⟨_, by simp only [HunSpell_stem, hp], ?_, ?_, hs.2.2⟩
    · simp only [HunSpell_stem, hp, hs.1]
    · rw [hs.2.1]; omega
  · intro hn ht
    have hs := appendLoop_spec (L.Hunspell_generate self.handle sourceWord exampleWord s).1.2
      (L.Hunspell_generate self.handle sourceWord exampleWord s).1.1 ht
    refine ⟨_, by simp only [HunSpell_generate, hpp], ?_, ?_, hs.2.2⟩
    · simp only [HunSpell_generate, hpp, hs.1]
    · rw [hs.2.1]; omega

/-- C5: construction takes the dictionary path first and the affix path
second: with arguments `(d, a)` the native engine is created by
`Hunspell_create(a, d)` and the handle it returns is stored in the instance. -/
theorem init_creates_with_affix_then_dictionary {σ : Type} (L : Hunlib σ) (self : HunSpell)
    (d a : String) (s : σ) (hd : isCString d = true) (ha : isCString a = true) :
    (HunSpell_init L self [PyObject.str d, PyObject.str a] s).self.handle
        = (L.Hunspell_create a d s).1
    ∧ (HunSpell_init L self [PyObject.str d, PyObject.str a] s).native
        = (L.Hunspell_create a d s).2 := by
  have hpp := PyArg_ParseTuple_ss_str d a hd ha
  simp only [HunSpell_init, hpp, and_self]

/-- Witness of C5 on the demonstration library: constructing with
`("en.dic", "en.aff")` stores handle `1` and loads the words of `en.dic`. -/
theorem init_creates_with_affix_then_dictionary_witness :
    (HunSpell_init demoLib HunSpell_new
        [PyObject.str "en.dic", PyObject.str "en.aff"] demoState).self.handle = 1
    ∧ (HunSpell_init demoLib HunSpell_new
        [PyObject.str "en.dic", PyObject.str "en.aff"] demoState).native.words
        = ["walk", "talk", "wall"] := by
  have h := init_creates_with_affix_then_dictionary demoLib HunSpell_new "en.dic" "en.aff"
    demoState (by decide) (by decide)
  exact ⟨h.1.trans (by decide), (congrArg DemoState.words h.2).trans (by decide)⟩

/-- Witness of the amended C2 on the demonstration library: for `walk` the
native calls report three suggestions, one analysis and one stem, and one
generated form for `walk` after the pattern of `talk`, all in UTF-8. -/
theorem list_methods_return_decodable_native_list_witness :
    (∃ items, (HunSpell_suggest demoLib { handle := 1 } [PyObject.str "walk"] demoState).ret
          = some (PyObject.list items)
        ∧ (HunSpell_suggest demoLib { handle := 1 } [PyObject.str "walk"] demoState).error
          = false
        ∧ (items.length : Int) = 3
        ∧ items[0]? = some (PyObject.str "walk")
        ∧ items[1]? = some (PyObject.str "talk")
        ∧ items[2]? = some (PyObject.str "wall"))
    ∧ (∃ items, (HunSpell_analyze demoLib { handle := 1 } [PyObject.str "walk"] demoState).ret
          = some (PyObject.list items)
        ∧ (items.length : Int) = 1
        ∧ items[0]? = some (PyObject.str "st:walk"))
    ∧ (∃ items, (HunSpell_stem demoLib { handle := 1 } [PyObject.str "walk"] demoState).ret
          = some (PyObject.list items)
        ∧ (items.length : Int) = 1
        ∧ items[0]? = some (PyObject.str "walk"))
    ∧ (∃ items, (HunSpell_generate demoLib { handle := 1 }
            [PyObject.str "walk", PyObject.str "talk"] demoState).ret
          = some (PyObject.list items)
        ∧ (items.length : Int) = 1
        ∧ items[0]? = some (PyObject.str "walk")) := by
  have h := list_methods_return_decodable_native_list demoLib { handle := 1 } "walk" "walk"
    "talk" demoState (by decide) (by decide) (by decide)
  obtain ⟨h1, h2, h3, h4⟩ := h
  have n1 : (demoLib.Hunspell_suggest 1 "walk" demoState).1.1 = 3 := by decide
  have n2 : (demoLib.Hunspell_analyze 1 "walk" demoState).1.1 = 1 := by decide
  have n3 : (demoLib.Hunspell_stem 1 "walk" demoState).1.1 = 1 := by decide
  have n4 : (demoLib.Hunspell_generate 1 "walk" "talk" demoState).1.1 = 1 := by decide
  have t1 : ∀ i : Nat, (i : Int) < (demoLib.Hunspell_suggest 1 "walk" demoState).1.1 →
      (cstrText ((demoLib.Hunspell_suggest 1 "walk" demoState).1.2 i)).isSome = true := by
    intro i hi
    rw [n1] at hi
    have hi3 : i = 0 ∨ i = 1 ∨ i = 2 := by omega
    rcases hi3 with rfl | rfl | rfl <;> decide
  have t2 : ∀ i : Nat, (i : Int) < (demoLib.Hunspell_analyze 1 "walk" demoState).1.1 →
      (cstrText ((demoLib.Hunspell_analyze 1 "walk" demoState).1.2 i)).isSome = true := by
    intro i hi
    rw [n2] at hi
    have hi1 : i = 0 := by omega
    subst hi1; decide
  have t3 : ∀ i : Nat, (i : Int) < (demoLib.Hunspell_stem 1 "walk" demoState).1.1 →
      (cstrText ((demoLib.Hunspell_stem 1 "walk" demoState).1.2 i)).isSome = true := by
    intro i hi
    rw [n3] at hi
    have hi1 : i = 0 := by omega
    subst hi1; decide
  have t4 : ∀ i : Nat, (i : Int) < (demoLib.Hunspell_generate 1 "walk" "talk" demoState).1.1 →
      (cstrText ((demoLib.Hunspell_generate 1 "walk" "talk" demoState).1.2 i)).isSome
        = true := by
    intro i hi
    rw [n4] at hi
    have hi1 : i = 0 := by omega
    subst hi1; decide
  obtain ⟨i1, r1, x1, l1, e1⟩ := h1 (by decide) t1
  obtain ⟨i2, r2, _, l2, e2⟩ := h2 (by decide) t2
  obtain ⟨i3, r3, _, l3, e3⟩ := h3 (by decide) t3
  obtain ⟨i4, r4, _, l4, e4⟩ := h4 (by decide) t4
  have c0 : cstrText ((demoLib.Hunspell_suggest 1 "walk" demoState).1.2 0) = some "walk" := by
    decide
  have c1 : cstrText ((demoLib.Hunspell_suggest 1 "walk" demoState).1.2 1) = some "talk" := by
    decide
  have c2 : cstrText ((demoLib.Hunspell_suggest 1 "walk" demoState).1.2 2) = some "wall" := by
    decide
  have c3 : cstrText ((demoLib.Hunspell_analyze 1 "walk" demoState).1.2 0)
      = some "st:walk" := by decide
  have c4 : cstrText ((demoLib.Hunspell_stem 1 "walk" demoState).1.2 0) = some "walk" := by
    decide
  have c5 : cstrText ((demoLib.Hunspell_generate 1 "walk" "talk" demoState).1.2 0)
      = some "walk" := by decide
  have a0 := e1 0 (by decide)
  have a1 := e1 1 (by decide)
  have a2 := e1 2 (by decide)
  have a3 := e2 0 (by decide)
  have a4 := e3 0 (by decide)
  have a5 := e4 0 (by decide)
  rw [c0] at a0
  rw [c1] at a1
  rw [c2] at a2
  rw [c3] at a3
  rw [c4] at a4
  rw [c5] at a5
  exact ⟨⟨i1, r1, x1, l1.trans n1, a0, a1, a2⟩, ⟨i2, r2, l2.trans n2, a3⟩,
    ⟨i3, r3, l3.trans n3, a4⟩, ⟨i4, r4, l4.trans n4, a5⟩⟩

/-- C9: if the argument tuple does not parse as one string, `spell`, `suggest`,
`analyze`, `stem`, `add` and `remove` return the error result (`NULL`, with the
error indicator set), and if it does not parse as two strings, so do `generate`
and `add_with_affix`; in each case the instance and the native state are
exactly as before, whatever the native
library is, and with a recorder attached to the library no native call is
recorded. -/
theorem parse_failure_makes_no_native_call {σ : Type} (L : Hunlib σ) (self : HunSpell)
    (args : List PyObject) (s : σ) (log : List Hunhandle) :
    (PyArg_ParseTuple_s args = none →
      HunSpell_spell L self args s = { ret := none, self := self, native := s, error := true }
      ∧ HunSpell_suggest L self args s = { ret := none, self := self, native := s, error := true }
      ∧ HunSpell_analyze L self args s = { ret := none, self := self, native := s, error := true }
      ∧ HunSpell_stem L self args s = { ret := none, self := self, native := s, error := true }
      ∧ HunSpell_add L self args s = { ret := none, self := self, native := s, error := true }
      ∧ HunSpell_remove L self args s = { ret := none, self := self, native := s, error := true }
      ∧ (HunSpell_spell (recording L) self args (s, log)).native.2 = log
      ∧ (HunSpell_suggest (recording L) self args (s, log)).native.2 = log
      ∧ (HunSpell_analyze (recording L) self args (s, log)).native.2 = log
      ∧ (HunSpell_stem (recording L) self args (s, log)).native.2 = log
      ∧ (HunSpell_add (recording L) self args (s, log)).native.2 = log
      ∧ (HunSpell_remove (recording L) self args (s, log)).native.2 = log)
    ∧ (PyArg_ParseTuple_ss args = none →
      HunSpell_generate L self args s = { ret := none, self := self, native := s, error := true }
      ∧ HunSpell_add_with_affix L self args s = { ret := none, self := self, native := s, error := true }
      ∧ (HunSpell_generate (recording L) self args (s, log)).native.2 = log
      ∧ (HunSpell_add_with_affix (recording L) self args (s, log)).native.2 = log) := by
  constructor
  · intro h
    simp only [HunSpell_spell, HunSpell_suggest, HunSpell_analyze, HunSpell_stem,
      HunSpell_add, HunSpell_remove, h, and_self]
  · intro h
    simp only [HunSpell_generate, HunSpell_add_with_affix, h, and_self]

/-- Witness of C9 on the demonstration library: the argument tuple `(5,)` is
neither one string nor two, and `remove` and `add_with_affix` called with it
return the error result and leave the word list as it was. -/
theorem parse_failure_makes_no_native_call_witness :
    HunSpell_remove demoLib { handle := 1 } [PyObject.int 5] demoState
        = { ret := none, self := { handle := 1 }, native := demoState, error := true }
    ∧ HunSpell_add_with_affix demoLib { handle := 1 } [PyObject.int 5] demoState
        = { ret := none, self := { handle := 1 }, native := demoState, error := true } :=
  ⟨((parse_failure_makes_no_native_call demoLib { handle := 1 } [PyObject.int 5]
        demoState []).1 rfl).2.2.2.2.2.1,
   ((parse_failure_makes_no_native_call demoLib { handle := 1 } [PyObject.int 5]
        demoState []).2 rfl).2.1⟩

end PyHunspell
